import Mathlib

/-!
Shallow embedding of the wbify-map ride-tracking core (VELO AI).

Sources embedded here:
* `src/types.ts` — `RoutePoint`, `RideStats`.
* `src/utils/geo.ts` — `calculateDistance` (haversine) and `formatDuration`.
* `src/App.tsx` — the `App` component's telemetry state (`isRecording`,
  `route`, `stats`, `lastPointRef`, `watchIdRef`, `timerRef`) and its
  operations `startRecording`, `stopRecording`, the `watchPosition`
  success callback (sample ingestion) and the `setInterval` callback
  (the once-per-second duration tick), plus `handleGetAIAnalysis`.
* `src/services/gemini.ts` — the advisory-request payload pieces that
  depend on the ride stats (route sampling and the reported avg speed).

Modelling conventions:
* JavaScript numbers are modelled as real numbers (`ℝ`); `duration`
  (whole seconds, incremented by 1) is a `ℕ`; epoch-millisecond clock
  readings (`Date.now()`, `position.timestamp`) are `ℤ`.  NaN/∞ and
  IEEE-754 rounding are outside the model.
* `Math.atan2` is embedded as the exact piecewise `atan2` below,
  following the JavaScript specification of `Math.atan2` on the
  branches reachable with non-NaN arguments.
* Platform subscription semantics are modelled faithfully:
  `navigator.geolocation.watchPosition` registers a callback that fires
  only while the watch is registered, and `clearWatch` / `clearInterval`
  cancel only the id they are given.  `startRecording` overwrites
  `watchIdRef.current` / `timerRef.current` without clearing the
  previous ids, so a start issued while a watch or timer is live leaks
  a subscription that can never be cleared afterwards (its id is lost).
  The state therefore tracks, besides the current watch/timer, whether
  any leaked (overwritten, still firing) watch or timer exists.
* The geolocation-available case is modelled (`startRecording` returns
  early with an alert when `navigator.geolocation` is absent, changing
  no state).
* React `useState` updates in the source are functional updates applied
  by a single-threaded event loop; each handler runs to completion, so
  each operation is one total function on the state.
-/

/-- `RoutePoint` from `src/types.ts`: one GPS fix.  `altitude` is
`number | null` in the source, hence an `Option`.  The `watchPosition`
callback in `App.tsx` builds the point with `speed: coords.speed || 0`,
so `speed` is already a plain number here, matching `types.ts`. -/
structure RoutePoint where
  latitude : ℝ
  longitude : ℝ
  timestamp : ℤ
  speed : ℝ
  altitude : Option ℝ

/-- `RideStats` from `src/types.ts`.  `startTime` is `number | null`. -/
structure RideStats where
  totalDistance : ℝ
  avgSpeed : ℝ
  maxSpeed : ℝ
  duration : ℕ
  startTime : Option ℤ
  elevationGain : ℝ

/-- Exact embedding of JavaScript `Math.atan2 y x` (for non-NaN inputs,
ignoring signed zeros): the angle of the point `(x, y)` in `(-π, π]`. -/
noncomputable def atan2 (y x : ℝ) : ℝ :=
  if 0 < x then Real.arctan (y / x)
  else if x < 0 then
    (if 0 ≤ y then Real.arctan (y / x) + Real.pi
     else Real.arctan (y / x) - Real.pi)
  else if 0 < y then Real.pi / 2
  else if y < 0 then -(Real.pi / 2)
  else 0

/-- `calculateDistance` from `src/utils/geo.ts`: haversine distance in
metres with Earth radius `6371e3`.  The source computes
`2 * Math.atan2(Math.sqrt(a), Math.sqrt(1 - a))` with no clamping of
`a`; `Real.sqrt` of a negative argument is `0` by convention, but for
real arithmetic `a` stays within `[0, 1]` anyway. -/
noncomputable def calculateDistance (p1 p2 : RoutePoint) : ℝ :=
  let R : ℝ := 6371000
  let phi1 := p1.latitude * Real.pi / 180
  let phi2 := p2.latitude * Real.pi / 180
  let dPhi := (p2.latitude - p1.latitude) * Real.pi / 180
  let dLambda := (p2.longitude - p1.longitude) * Real.pi / 180
  let a := Real.sin (dPhi / 2) * Real.sin (dPhi / 2) +
    Real.cos phi1 * Real.cos phi2 * Real.sin (dLambda / 2) * Real.sin (dLambda / 2)
  let c := 2 * atan2 (Real.sqrt a) (Real.sqrt (1 - a))
  R * c

/-- The two-digit padding step of `formatDuration` in `src/utils/geo.ts`:
`(v) => (v < 10 ? "0" + v : v)` (for `v ≥ 10` the JavaScript array
element stays a number, but `join` stringifies it and the strict
comparison `v !== "00"` is then always true, so mapping to the decimal
string directly is behaviourally identical). -/
def pad2 (v : ℕ) : String :=
  if v < 10 then "0" ++ toString v else toString v

/-- `formatDuration` from `src/utils/geo.ts`.  The filter
`(v, i) => v !== "00" || i > 0` keeps every component except a `"00"`
at index 0 (the hours). -/
def formatDuration (seconds : ℕ) : String :=
  let h := seconds / 3600
  let m := seconds % 3600 / 60
  let s := seconds % 60
  String.intercalate ":"
    ((([h, m, s].map pad2).enum.filter
      (fun vi => vi.2 != "00" || vi.1 != 0)).map Prod.snd)

/-- The telemetry state of the `App` component in `src/App.tsx`:
`isRecording`, `route`, `stats`, `lastPointRef.current`, and the
liveness of the geolocation watch and the interval timer.
`leakedWatches` / `leakedTimers` record whether any watch/timer id was
overwritten by `startRecording` without being cleared; such
subscriptions keep firing and can never be cancelled (their ids are
lost), so a single flag suffices. -/
structure AppState where
  isRecording : Bool
  route : List RoutePoint
  stats : RideStats
  lastPoint : Option RoutePoint
  watchLive : Bool
  leakedWatches : Bool
  timerLive : Bool
  leakedTimers : Bool

/-- The initial `useState` values (`src/App.tsx` lines 26–35, 41–43). -/
def initStats : RideStats :=
  { totalDistance := 0, avgSpeed := 0, maxSpeed := 0, duration := 0,
    startTime := none, elevationGain := 0 }

/-- Initial component state: not recording, empty route, zero stats,
no retained point, no watch, no timer. -/
def initState : AppState :=
  { isRecording := false, route := [], stats := initStats,
    lastPoint := none, watchLive := false, leakedWatches := false,
    timerLive := false, leakedTimers := false }

/-- `startRecording` from `src/App.tsx` (lines 67–126), in the
geolocation-available case: sets `isRecording`, clears the route,
resets the stats with `startTime = Date.now()`, registers a new watch
and a new interval timer.  It does NOT touch `lastPointRef`, and it
overwrites `watchIdRef.current` / `timerRef.current` without clearing
them, leaking any previously live watch/timer. -/
def startRecording (now : ℤ) (s : AppState) : AppState :=
  { isRecording := true
    route := []
    stats := { totalDistance := 0, avgSpeed := 0, maxSpeed := 0,
               duration := 0, startTime := some now, elevationGain := 0 }
    lastPoint := s.lastPoint
    watchLive := true
    leakedWatches := s.leakedWatches || s.watchLive
    timerLive := true
    leakedTimers := s.leakedTimers || s.timerLive }

/-- `stopRecording` from `src/App.tsx` (lines 128–140): clears the
current watch and timer (only the current ids — leaked ones stay
live), sets `isRecording` to false and `lastPointRef.current = null`.
`route` and `stats` are left exactly as last computed. -/
def stopRecording (s : AppState) : AppState :=
  { s with isRecording := false, lastPoint := none,
           watchLive := false, timerLive := false }

/-- The `watchPosition` success callback from `src/App.tsx`
(lines 90–118), delivering one sample `p`.  The callback fires only
while some watch (current or leaked) is registered; otherwise no
delivery happens and the state is untouched.  Effects: append `p` to
the route unconditionally; if a previous point is retained, add the
haversine distance to `totalDistance`, take the max of the speeds, add
the altitude delta (missing altitude read as 0, via `|| 0`) to
`elevationGain` only when strictly positive; finally retain `p` as the
previous point.  `avgSpeed`, `duration` and `startTime` are spread
through unchanged. -/
noncomputable def onPosition (p : RoutePoint) (s : AppState) : AppState :=
  if s.watchLive || s.leakedWatches then
    let s1 : AppState := { s with route := s.route ++ [p] }
    match s.lastPoint with
    | some lp =>
      let distance := calculateDistance lp p
      let elev := p.altitude.getD 0 - lp.altitude.getD 0
      { s1 with
        stats := { s1.stats with
          totalDistance := s1.stats.totalDistance + distance
          maxSpeed := max s1.stats.maxSpeed p.speed
          elevationGain :=
            if 0 < elev then s1.stats.elevationGain + elev
            else s1.stats.elevationGain }
        lastPoint := some p }
    | none => { s1 with lastPoint := some p }
  else s

/-- The `setInterval` callback from `src/App.tsx` (lines 123–125):
while some interval (current or leaked) is live, each firing increments
`duration` by 1; otherwise nothing fires. -/
def onTick (s : AppState) : AppState :=
  if s.timerLive || s.leakedTimers then
    { s with stats := { s.stats with duration := s.stats.duration + 1 } }
  else s

/-- Ingest a list of samples in order (repeated firings of the
`watchPosition` callback). -/
noncomputable def ingestList (ps : List RoutePoint) (s : AppState) : AppState :=
  ps.foldl (fun st q => onPosition q st) s

/-- States reachable from the initial component state by any
interleaving of the four operations: a `startRecording` invocation
(with the `Date.now()` reading it observes), a `stopRecording`
invocation, a position delivery, and a timer firing. -/
inductive Reachable : AppState → Prop
  | init : Reachable initState
  | start (s : AppState) (now : ℤ) : Reachable s → Reachable (startRecording now s)
  | stop (s : AppState) : Reachable s → Reachable (stopRecording s)
  | pos (s : AppState) (p : RoutePoint) : Reachable s → Reachable (onPosition p s)
  | tick (s : AppState) : Reachable s → Reachable (onTick s)

/-- The displayed average speed, `src/App.tsx` line 190:
`stats.duration > 0 ? ((stats.totalDistance / stats.duration) * 3.6).toFixed(1) : "0.0"`,
modelled as the underlying numeric value in km/h (`toFixed(1)` is
presentation-layer string rounding). -/
noncomputable def avgSpeedKmH (st : RideStats) : ℝ :=
  if 0 < st.duration then st.totalDistance / (st.duration : ℝ) * 3.6 else 0

/-- The `Avg Speed` figure placed in the advisory-request prompt,
`src/services/gemini.ts` line 19: `(stats.avgSpeed * 3.6).toFixed(1)`,
modelled as the underlying numeric value in km/h.  Note it reads the
STORED `avgSpeed` field, unlike the display value above. -/
noncomputable def payloadAvgSpeedKmH (st : RideStats) : ℝ :=
  st.avgSpeed * 3.6

/-- The condensed route built for the advisory request,
`src/services/gemini.ts` lines 10–14:
`route.filter((_, i) => i % 5 === 0).map(p => ({lat, lon, spd}))`,
modelled as the numeric triples (latitude, longitude, speed·3.6)
underlying the `toFixed` strings. -/
noncomputable def sampledRoute (route : List RoutePoint) : List (ℝ × ℝ × ℝ) :=
  ((route.enum.filter (fun iv => iv.1 % 5 == 0)).map Prod.snd).map
    (fun p => (p.latitude, p.longitude, p.speed * 3.6))

/-- `handleGetAIAnalysis` from `src/App.tsx` (lines 142–157): with
fewer than 5 route points it alerts and returns before any external
call (`none`); otherwise it issues the external advisory request built
by `getAIAnalysis` from the stats and the sampled route (`some ...`).
Neither branch writes `route` or `stats` (the handler only toggles the
out-of-scope `isLoadingAI` / `aiInsight` presentation state), so the
resulting telemetry state is returned alongside. -/
noncomputable def handleGetAIAnalysis (s : AppState) :
    Option (RideStats × List (ℝ × ℝ × ℝ)) × AppState :=
  if s.route.length < 5 then (none, s)
  else (some (s.stats, sampledRoute s.route), s)

/-- Spec-side formula (§8 of the spec): the sum of the great-circle
distances between consecutive samples of a list, starting from a given
previous point `q`. -/
noncomputable def sumDistFrom (q : RoutePoint) : List RoutePoint → ℝ
  | [] => 0
  | p :: rest => calculateDistance q p + sumDistFrom p rest

/-- Spec-side formula (§8 of the spec): the sum of the pairwise
consecutive great-circle distances of a sample list ("totalDistance
after ingestion equals the sum of pairwise consecutive distances"). -/
noncomputable def consecutiveDistanceSum : List RoutePoint → ℝ
  | [] => 0
  | p :: rest => sumDistFrom p rest

/-- A stationary fix at the origin with a given altitude reading
(used as concrete test input; latitude 0, longitude 0, speed 0). -/
def flatPoint (a : ℝ) : RoutePoint :=
  { latitude := 0, longitude := 0, timestamp := 0, speed := 0,
    altitude := some a }

/-- A fix at the origin with no altitude reading. -/
def originPoint : RoutePoint :=
  { latitude := 0, longitude := 0, timestamp := 0, speed := 0,
    altitude := none }

/-- A fix on the equator at longitude 180°, antipodal to
`originPoint`, with no altitude reading. -/
def farPoint : RoutePoint :=
  { latitude := 0, longitude := 180, timestamp := 0, speed := 0,
    altitude := none }

/-- The structural invariant of the component: the geolocation watch
and the interval timer are live exactly while recording, and — as long
as no subscription was ever leaked — the retained previous point is
empty whenever recording is inactive. -/
def StateInv (s : AppState) : Prop :=
  s.watchLive = s.isRecording ∧ s.timerLive = s.isRecording ∧
    (s.isRecording = false → s.leakedWatches = false → s.lastPoint = none)

/-- Concrete run: start at time 0, ingest `originPoint`, ingest the
antipodal `farPoint` (adding haversine distance 6371000·π metres), then
one timer tick (duration 1 s). -/
noncomputable def runA : AppState :=
  onTick (onPosition farPoint (onPosition originPoint (startRecording 0 initState)))

/-- Concrete run: two consecutive starts (the second leaks the first
watch and timer) followed by a stop.  Recording is inactive, yet the
leaked watch is still registered. -/
def runLeak : AppState :=
  stopRecording (startRecording 1 (startRecording 0 initState))

/-- Concrete run: start at time 0, ingest a fix with altitude 0, then
start again at time 1 while still recording.  `startRecording` does not
touch `lastPointRef`, so the retained previous point survives into the
new ride. -/
noncomputable def runRestart : AppState :=
  startRecording 1 (onPosition (flatPoint 0) (startRecording 0 initState))

/-- Concrete run: a fresh ride ingesting the altitude sequence
[100, 95, 110, 108, 130] at a fixed location. -/
noncomputable def runElev : AppState :=
  ingestList [flatPoint 100, flatPoint 95, flatPoint 110, flatPoint 108, flatPoint 130]
    (startRecording 0 initState)

theorem onPosition_flags (p : RoutePoint) (s : AppState) :
    (onPosition p s).isRecording = s.isRecording ∧
    (onPosition p s).watchLive = s.watchLive ∧
    (onPosition p s).timerLive = s.timerLive ∧
    (onPosition p s).leakedWatches = s.leakedWatches ∧
    (onPosition p s).leakedTimers = s.leakedTimers ∧
    (onPosition p s).stats.avgSpeed = s.stats.avgSpeed ∧
    (onPosition p s).stats.duration = s.stats.duration ∧
    (onPosition p s).stats.startTime = s.stats.startTime := by
  unfold onPosition
  by_cases hw : (s.watchLive || s.leakedWatches) = true
  · cases hlp : s.lastPoint <;> simp [hw, hlp]
  · simp [hw]

theorem onPosition_not_live (p : RoutePoint) (s : AppState)
    (h1 : s.watchLive = false) (h2 : s.leakedWatches = false) :
    onPosition p s = s := by
  unfold onPosition
  rw [h1, h2]
  simp

theorem onTick_not_live (s : AppState)
    (h1 : s.timerLive = false) (h2 : s.leakedTimers = false) :
    onTick s = s := by
  unfold onTick
  rw [h1, h2]
  simp

theorem onTick_fields (s : AppState) :
    (onTick s).isRecording = s.isRecording ∧
    (onTick s).watchLive = s.watchLive ∧
    (onTick s).timerLive = s.timerLive ∧
    (onTick s).leakedWatches = s.leakedWatches ∧
    (onTick s).leakedTimers = s.leakedTimers ∧
    (onTick s).lastPoint = s.lastPoint ∧
    (onTick s).route = s.route ∧
    (onTick s).stats.avgSpeed = s.stats.avgSpeed ∧
    (onTick s).stats.totalDistance = s.stats.totalDistance ∧
    (onTick s).stats.maxSpeed = s.stats.maxSpeed ∧
    (onTick s).stats.elevationGain = s.stats.elevationGain := by
  unfold onTick
  by_cases ht : (s.timerLive || s.leakedTimers) = true <;> simp [ht]

theorem reachable_inv (s : AppState) (h : Reachable s) : StateInv s := by
  induction h with
  | init => exact ⟨rfl, rfl, fun _ _ => rfl⟩
  | start s now _ _ =>
    refine ⟨rfl, rfl, fun h1 _ => ?_⟩
    simp [startRecording] at h1
  | stop s _ _ => exact ⟨rfl, rfl, fun _ _ => rfl⟩
  | pos s p _ ih =>
    obtain ⟨i1, i2, i3⟩ := ih
    obtain ⟨f1, f2, f3, f4, _, _, _, _⟩ := onPosition_flags p s
    refine ⟨?_, ?_, fun hrec hlk => ?_⟩
    · rw [f2, f1, i1]
    · rw [f3, f1, i2]
    · rw [f1] at hrec
      rw [f4] at hlk
      have hW : s.watchLive = false := by rw [i1, hrec]
      rw [onPosition_not_live p s hW hlk]
      exact i3 hrec hlk
  | tick s _ ih =>
    obtain ⟨i1, i2, i3⟩ := ih
    obtain ⟨g1, g2, g3, g4, _, g6, _, _, _, _, _⟩ := onTick_fields s
    refine ⟨?_, ?_, fun hrec hlk => ?_⟩
    · rw [g2, g1, i1]
    · rw [g3, g1, i2]
    · rw [g1] at hrec
      rw [g4] at hlk
      rw [g6]
      exact i3 hrec hlk

theorem stats_avgSpeed_zero (s : AppState) (h : Reachable s) :
    s.stats.avgSpeed = 0 := by
  induction h with
  | init => rfl
  | start s now _ _ => rfl
  | stop s _ ih => exact ih
  | pos s p _ ih =>
    obtain ⟨_, _, _, _, _, f6, _, _⟩ := onPosition_flags p s
    rw [f6]
    exact ih
  | tick s _ ih =>
    obtain ⟨_, _, _, _, _, _, _, g8, _, _, _⟩ := onTick_fields s
    rw [g8]
    exact ih

theorem arctan_nonneg_of_nonneg (t : ℝ) (ht : 0 ≤ t) : 0 ≤ Real.arctan t := by
  have h := Real.arctan_strictMono.monotone ht
  rwa [Real.arctan_zero] at h

theorem atan2_nonneg (y x : ℝ) (hy : 0 ≤ y) : 0 ≤ atan2 y x := by
  have ha := Real.neg_pi_div_two_lt_arctan (y / x)
  have hp := Real.pi_pos
  unfold atan2
  by_cases h1 : 0 < x
  · rw [if_pos h1]
    exact arctan_nonneg_of_nonneg _ (div_nonneg hy h1.le)
  · rw [if_neg h1]
    by_cases h2 : x < 0
    · rw [if_pos h2, if_pos hy]
      linarith
    · rw [if_neg h2]
      by_cases h4 : 0 < y
      · rw [if_pos h4]
        linarith
      · rw [if_neg h4, if_neg (not_lt.mpr hy)]

theorem calculateDistance_nonneg (p1 p2 : RoutePoint) :
    0 ≤ calculateDistance p1 p2 := by
  simp only [calculateDistance]
  refine mul_nonneg (by norm_num) (mul_nonneg (by norm_num) ?_)
  exact atan2_nonneg _ _ (Real.sqrt_nonneg _)

theorem calculateDistance_eq_coords (p1 p2 : RoutePoint)
    (h1 : p2.latitude = p1.latitude) (h2 : p2.longitude = p1.longitude) :
    calculateDistance p1 p2 = 0 := by
  simp [calculateDistance, h1, h2, atan2, Real.arctan_zero]

theorem calculateDistance_origin_far :
    calculateDistance originPoint farPoint = 6371000 * Real.pi := by
  simp only [calculateDistance, originPoint, farPoint]
  norm_num
  rw [show atan2 1 0 = Real.pi / 2 by norm_num [atan2]]
  ring

theorem onPosition_totalDistance_mono (p : RoutePoint) (s : AppState) :
    s.stats.totalDistance ≤ (onPosition p s).stats.totalDistance := by
  unfold onPosition
  by_cases hw : (s.watchLive || s.leakedWatches) = true
  · cases hlp : s.lastPoint with
    | none => simp [hw, hlp]
    | some q =>
      have := calculateDistance_nonneg q p
      simp [hw, hlp]
      linarith
  · simp [hw]

theorem ingestList_totalDistance_from (ps : List RoutePoint) :
    ∀ (s : AppState) (q : RoutePoint), s.watchLive = true → s.lastPoint = some q →
      (ingestList ps s).stats.totalDistance =
        s.stats.totalDistance + sumDistFrom q ps := by
  induction ps with
  | nil =>
    intro s q _ _
    simp [ingestList, sumDistFrom]
  | cons p rest ih =>
    intro s q hw hlp
    have hstep : ingestList (p :: rest) s = ingestList rest (onPosition p s) := rfl
    rw [hstep]
    have hd : (onPosition p s).stats.totalDistance =
        s.stats.totalDistance + calculateDistance q p := by
      unfold onPosition
      rw [hw, hlp]
      simp
    have hl : (onPosition p s).lastPoint = some p := by
      unfold onPosition
      rw [hw, hlp]
      simp
    have hw2 : (onPosition p s).watchLive = true := by
      unfold onPosition
      rw [hw, hlp]
      simp
    rw [ih (onPosition p s) p hw2 hl, hd, sumDistFrom]
    ring

theorem ingestList_totalDistance_fresh (ps : List RoutePoint) (s : AppState)
    (hw : s.watchLive = true) (hlp : s.lastPoint = none) :
    (ingestList ps s).stats.totalDistance =
      s.stats.totalDistance + consecutiveDistanceSum ps := by
  cases ps with
  | nil => simp [ingestList, consecutiveDistanceSum]
  | cons p rest =>
    have hstep : ingestList (p :: rest) s = ingestList rest (onPosition p s) := rfl
    rw [hstep]
    have hd : (onPosition p s).stats.totalDistance = s.stats.totalDistance := by
      unfold onPosition
      rw [hw, hlp]
      simp
    have hl : (onPosition p s).lastPoint = some p := by
      unfold onPosition
      rw [hw, hlp]
      simp
    have hw2 : (onPosition p s).watchLive = true := by
      unfold onPosition
      rw [hw, hlp]
      simp
    rw [ingestList_totalDistance_from rest (onPosition p s) p hw2 hl, hd]
    simp [consecutiveDistanceSum]

theorem onPosition_flat_step (a b : ℝ) (s : AppState) (hw : s.watchLive = true)
    (hlp : s.lastPoint = some (flatPoint a)) :
    ((onPosition (flatPoint b) s).stats.elevationGain =
      if 0 < b - a then s.stats.elevationGain + (b - a) else s.stats.elevationGain) ∧
    (onPosition (flatPoint b) s).lastPoint = some (flatPoint b) ∧
    (onPosition (flatPoint b) s).watchLive = true := by
  unfold onPosition
  rw [hw, hlp]
  simp [flatPoint]

/-- C7: for every pair of identical input points, the great-circle
distance function returns exactly 0 (in the exact-real model of
`calculateDistance`, the haversine argument, the square roots and the
`atan2` all collapse to the zero branch). -/
theorem calculateDistance_self (p : RoutePoint) : calculateDistance p p = 0 :=
  calculateDistance_eq_coords p p rfl rfl

/-- C4 counterexample: the duration formatter does NOT suppress a
zero minutes component and does NOT leave the hours component
unpadded; at the claim's own example inputs 9, 61 and 3661 its output
differs from the claimed "09", "1:01" and "1:01:01". -/
theorem formatDuration_claim_false :
    formatDuration 9 ≠ "09" ∧ formatDuration 61 ≠ "1:01" ∧
      formatDuration 3661 ≠ "1:01:01" := by
  refine ⟨?_, ?_, ?_⟩ <;> decide

/-- C4 amended: the formatter drops only a zero HOURS component
(`v !== "00" || i > 0` keeps indices 1 and 2 unconditionally) and pads
every rendered component, including the leading one, to two digits:
formatDuration 3661 = "01:01:01", formatDuration 61 = "01:01",
formatDuration 9 = "00:09". -/
theorem formatDuration_values :
    formatDuration 3661 = "01:01:01" ∧ formatDuration 61 = "01:01" ∧
      formatDuration 9 = "00:09" := by
  refine ⟨?_, ?_, ?_⟩ <;> decide

/-- C9: whenever the route contains fewer than 5 points, the advisory
(AI) analysis handler rejects the request locally — no external request
payload is produced — and the telemetry state (route and stats) is
returned unchanged. -/
theorem aiAnalysis_rejected_short_route (s : AppState)
    (h : s.route.length < 5) : handleGetAIAnalysis s = (none, s) := by
  unfold handleGetAIAnalysis
  rw [if_pos h]

/-- Witness for C9 at the initial state (empty route, 0 < 5). -/
theorem aiAnalysis_rejected_short_route_witness :
    initState.route.length < 5 ∧ handleGetAIAnalysis initState = (none, initState) := by
  have h : initState.route.length < 5 := by simp [initState]
  exact ⟨h, aiAnalysis_rejected_short_route initState h⟩

/-- C10: in every reachable state the stored `avgSpeed` field of the
ride stats equals exactly 0 — it is initialised to 0, reset to 0 by
`startRecording`, and never written by any other operation — so the
advisory-request payload (`(stats.avgSpeed * 3.6).toFixed(1)` in
`gemini.ts`) always reports an average speed of 0, regardless of the
ride's distance and duration. -/
theorem stored_avgSpeed_always_zero (s : AppState) (h : Reachable s) :
    s.stats.avgSpeed = 0 ∧ payloadAvgSpeedKmH s.stats = 0 := by
  have hz := stats_avgSpeed_zero s h
  refine ⟨hz, ?_⟩
  unfold payloadAvgSpeedKmH
  rw [hz]
  ring

/-- Witness for C10 at the initial state. -/
theorem stored_avgSpeed_always_zero_witness :
    initState.stats.avgSpeed = 0 ∧ payloadAvgSpeedKmH initState.stats = 0 :=
  stored_avgSpeed_always_zero initState Reachable.init

/-- C1 counterexample: the `avgSpeed` stored in the ride stats does
NOT track `totalDistance / duration`.  In the reachable state `runA`
(start, two antipodal fixes, one tick), `duration = 1 > 0` and
`totalDistance = 6371000·π > 0`, yet the stored `avgSpeed` is still 0:
no operation ever recomputes it. -/
theorem avgSpeed_claim_counterexample :
    Reachable runA ∧ 0 < runA.stats.duration ∧
      runA.stats.avgSpeed ≠ runA.stats.totalDistance / (runA.stats.duration : ℝ) := by
  have hreach : Reachable runA :=
    Reachable.tick _ (Reachable.pos _ farPoint (Reachable.pos _ originPoint
      (Reachable.start _ 0 Reachable.init)))
  have e2 : onPosition originPoint (startRecording 0 initState) =
      { isRecording := true, route := [originPoint],
        stats := { totalDistance := 0, avgSpeed := 0, maxSpeed := 0,
                   duration := 0, startTime := some 0, elevationGain := 0 },
        lastPoint := some originPoint, watchLive := true, leakedWatches := false,
        timerLive := true, leakedTimers := false } := rfl
  have e3 : onPosition farPoint (onPosition originPoint (startRecording 0 initState)) =
      { isRecording := true, route := [originPoint, farPoint],
        stats := { totalDistance := 6371000 * Real.pi, avgSpeed := 0, maxSpeed := 0,
                   duration := 0, startTime := some 0, elevationGain := 0 },
        lastPoint := some farPoint, watchLive := true, leakedWatches := false,
        timerLive := true, leakedTimers := false } := by
    rw [e2]
    unfold onPosition
    simp [originPoint, farPoint, calculateDistance_origin_far]
    exact calculateDistance_origin_far
  have e4 : runA =
      { isRecording := true, route := [originPoint, farPoint],
        stats := { totalDistance := 6371000 * Real.pi, avgSpeed := 0, maxSpeed := 0,
                   duration := 1, startTime := some 0, elevationGain := 0 },
        lastPoint := some farPoint, watchLive := true, leakedWatches := false,
        timerLive := true, leakedTimers := false } := by
    unfold runA
    rw [e3]
    rfl
  refine ⟨hreach, ?_, ?_⟩
  · rw [e4]
    exact Nat.zero_lt_one
  · rw [e4]
    have hpi := Real.pi_pos
    simp only
    push_cast
    rw [div_one]
    intro hcontra
    nlinarith

/-- C1 amended: in every reachable state the STORED `avgSpeed` field
is exactly 0 and never tracks `totalDistance / duration`; the value
`totalDistance / duration` (when `duration > 0`, else 0, times 3.6 for
km/h) is recomputed on read for the display only (`App.tsx` line 190,
modelled by `avgSpeedKmH`), so that derived reading — not the stored
field — is the pure function of the totals. -/
theorem avgSpeed_stored_vs_derived (s : AppState) (h : Reachable s) :
    s.stats.avgSpeed = 0 ∧
      avgSpeedKmH s.stats =
        (if 0 < s.stats.duration
         then s.stats.totalDistance / (s.stats.duration : ℝ) * 3.6 else 0) :=
  ⟨stats_avgSpeed_zero s h, rfl⟩

/-- Witness for the amended C1 at the initial state. -/
theorem avgSpeed_stored_vs_derived_witness :
    initState.stats.avgSpeed = 0 ∧
      avgSpeedKmH initState.stats =
        (if 0 < initState.stats.duration
         then initState.stats.totalDistance / (initState.stats.duration : ℝ) * 3.6
         else 0) :=
  avgSpeed_stored_vs_derived initState Reachable.init

/-- C2 counterexample: after the reachable sequence start–start–stop,
recording is inactive, but the geolocation watch leaked by the second
`startRecording` (which overwrote `watchIdRef.current` without
`clearWatch`) is still registered, and a sample it delivers mutates the
route — ingestion while idle is NOT always a no-op. -/
theorem idle_ingest_claim_counterexample :
    Reachable runLeak ∧ runLeak.isRecording = false ∧
      (onPosition originPoint runLeak).route ≠ runLeak.route := by
  have hreach : Reachable runLeak :=
    Reachable.stop _ (Reachable.start _ 1 (Reachable.start _ 0 Reachable.init))
  refine ⟨hreach, rfl, ?_⟩
  have e : runLeak =
      { isRecording := false, route := [],
        stats := { totalDistance := 0, avgSpeed := 0, maxSpeed := 0,
                   duration := 0, startTime := some 1, elevationGain := 0 },
        lastPoint := none, watchLive := false, leakedWatches := true,
        timerLive := false, leakedTimers := true } := rfl
  rw [e]
  unfold onPosition
  simp

/-- C2 amended: in every reachable state in which recording is
inactive AND no watch was ever leaked (i.e. `startRecording` was never
invoked while a watch was live), delivering a sample is a complete
no-op: the whole state — in particular `route`, `totalDistance`,
`maxSpeed` and `elevationGain` — is unchanged, and no error is raised.
Without the no-leak condition the claim fails
(`idle_ingest_claim_counterexample`). -/
theorem idle_ingest_noop (s : AppState) (p : RoutePoint) (h : Reachable s)
    (h2 : s.isRecording = false) (h3 : s.leakedWatches = false) :
    onPosition p s = s := by
  obtain ⟨i1, _, _⟩ := reachable_inv s h
  refine onPosition_not_live p s ?_ h3
  rw [i1, h2]

/-- Witness for the amended C2 at the initial state. -/
theorem idle_ingest_noop_witness :
    initState.isRecording = false ∧ initState.leakedWatches = false ∧
      onPosition originPoint initState = initState :=
  ⟨rfl, rfl, idle_ingest_noop initState originPoint Reachable.init rfl rfl⟩

/-- C3 counterexample: `startRecording` does not clear the retained
previous point.  In the reachable run start–ingest(alt 0)–start, the
state right after the second start still retains the previous ride's
last fix, and the first sample of the new ride (alt 10, same
coordinates) contributes a positive elevation delta: elevationGain
becomes 10 ≠ 0. -/
theorem start_keeps_lastPoint_counterexample :
    Reachable runRestart ∧ runRestart.lastPoint ≠ none ∧
      (onPosition (flatPoint 10) runRestart).stats.elevationGain ≠ 0 := by
  have hreach : Reachable runRestart :=
    Reachable.start _ 1 (Reachable.pos _ (flatPoint 0) (Reachable.start _ 0 Reachable.init))
  have e : runRestart =
      { isRecording := true, route := [],
        stats := { totalDistance := 0, avgSpeed := 0, maxSpeed := 0,
                   duration := 0, startTime := some 1, elevationGain := 0 },
        lastPoint := some (flatPoint 0), watchLive := true, leakedWatches := true,
        timerLive := true, leakedTimers := true } := rfl
  refine ⟨hreach, ?_, ?_⟩
  · rw [e]
    simp
  · rw [e]
    unfold onPosition
    have hd := calculateDistance_eq_coords (flatPoint 0) (flatPoint 10) rfl rfl
    simp [flatPoint]

/-- C3 amended: every call to `startRecording` clears the route and
resets all cumulative stats to zero with `startTime = now`, but leaves
the retained previous point UNCHANGED (only `stopRecording` clears
it).  When start is issued from a reachable idle state with no leaked
watch — where the previous point is necessarily empty — the first
sample of the new ride contributes no distance or elevation delta (the
stats after it are still the reset stats) and only appends itself to
the route.  A start issued while already recording retains the old
previous point, so there the first sample can contribute deltas
(`start_keeps_lastPoint_counterexample`). -/
theorem start_effects (s : AppState) (now : ℤ) (p : RoutePoint)
    (h : Reachable s) (h2 : s.isRecording = false) (h3 : s.leakedWatches = false) :
    (startRecording now s).route = [] ∧
    (startRecording now s).stats =
      { totalDistance := 0, avgSpeed := 0, maxSpeed := 0, duration := 0,
        startTime := some now, elevationGain := 0 } ∧
    (startRecording now s).lastPoint = s.lastPoint ∧
    (onPosition p (startRecording now s)).stats =
      { totalDistance := 0, avgSpeed := 0, maxSpeed := 0, duration := 0,
        startTime := some now, elevationGain := 0 } ∧
    (onPosition p (startRecording now s)).route = [p] := by
  have hlp : s.lastPoint = none := (reachable_inv s h).2.2 h2 h3
  have hstart : (startRecording now s).lastPoint = none := hlp
  refine ⟨rfl, rfl, rfl, ?_, ?_⟩
  · unfold onPosition
    rw [hstart]
    simp [startRecording]
  · unfold onPosition
    rw [hstart]
    simp [startRecording]

/-- Witness for the amended C3 at the initial state. -/
theorem start_effects_witness :
    initState.isRecording = false ∧ initState.leakedWatches = false ∧
      ((startRecording 5 initState).route = [] ∧
       (startRecording 5 initState).stats =
         { totalDistance := 0, avgSpeed := 0, maxSpeed := 0, duration := 0,
           startTime := some 5, elevationGain := 0 } ∧
       (startRecording 5 initState).lastPoint = initState.lastPoint ∧
       (onPosition originPoint (startRecording 5 initState)).stats =
         { totalDistance := 0, avgSpeed := 0, maxSpeed := 0, duration := 0,
           startTime := some 5, elevationGain := 0 } ∧
       (onPosition originPoint (startRecording 5 initState)).route = [originPoint]) :=
  ⟨rfl, rfl, start_effects initState 5 originPoint Reachable.init rfl rfl⟩

/-- C5 amended: for any sequence of samples ingested during one
recording session BEGUN FROM a reachable idle state with no leaked
watch — there the retained previous point is provably empty, so the
session's accumulator starts cleanly at 0 — `totalDistance` after the
sequence equals the sum of the great-circle distances between
consecutive samples, and ingesting one more sample never decreases
`totalDistance`.  For a session begun by a start issued while already
recording the equality fails (`totalDistance_claim_counterexample`),
because `startRecording` retains the previous ride's last fix and the
session's first sample adds the distance from that fix. -/
theorem totalDistance_consecutive_sum (s : AppState) (now : ℤ)
    (ps : List RoutePoint) (p : RoutePoint) (h : Reachable s)
    (h2 : s.isRecording = false) (h3 : s.leakedWatches = false) :
    (ingestList ps (startRecording now s)).stats.totalDistance =
      consecutiveDistanceSum ps ∧
    (ingestList ps (startRecording now s)).stats.totalDistance ≤
      (ingestList (ps ++ [p]) (startRecording now s)).stats.totalDistance := by
  have hlp : (startRecording now s).lastPoint = none := (reachable_inv s h).2.2 h2 h3
  have hw : (startRecording now s).watchLive = true := rfl
  constructor
  · rw [ingestList_totalDistance_fresh ps (startRecording now s) hw hlp]
    simp [startRecording]
  · have happ : ingestList (ps ++ [p]) (startRecording now s) =
        onPosition p (ingestList ps (startRecording now s)) := by
      unfold ingestList
      rw [List.foldl_append]
      rfl
    rw [happ]
    exact onPosition_totalDistance_mono p _

/-- Witness for C5: the empty sample sequence ingested into a fresh
ride started from the initial state. -/
theorem totalDistance_consecutive_sum_witness :
    initState.isRecording = false ∧ initState.leakedWatches = false ∧
      ((ingestList [] (startRecording 0 initState)).stats.totalDistance =
         consecutiveDistanceSum [] ∧
       (ingestList [] (startRecording 0 initState)).stats.totalDistance ≤
         (ingestList ([] ++ [originPoint]) (startRecording 0 initState)).stats.totalDistance) :=
  ⟨rfl, rfl, totalDistance_consecutive_sum initState 0 [] originPoint Reachable.init rfl rfl⟩

/-- C6: while recording with a retained previous point, ingesting a
sample adds the elevation delta against the previous point (missing
altitude on either side read as 0) to `elevationGain` exactly when the
delta is strictly positive, and discards negative or zero deltas; in
particular a fresh ride ingesting the altitude sequence
[100, 95, 110, 108, 130] ends with elevationGain = 15 + 22 = 37. -/
theorem elevationGain_positive_deltas (s : AppState) (p lp : RoutePoint)
    (hw : s.watchLive = true) (hlp : s.lastPoint = some lp) :
    ((onPosition p s).stats.elevationGain =
      if 0 < p.altitude.getD 0 - lp.altitude.getD 0
      then s.stats.elevationGain + (p.altitude.getD 0 - lp.altitude.getD 0)
      else s.stats.elevationGain) ∧
    runElev.stats.elevationGain = 37 := by
  constructor
  · unfold onPosition
    rw [hw, hlp]
    simp
  · have h1lp : (onPosition (flatPoint 100) (startRecording 0 initState)).lastPoint =
        some (flatPoint 100) := rfl
    have h1w : (onPosition (flatPoint 100) (startRecording 0 initState)).watchLive = true := rfl
    have h1g : (onPosition (flatPoint 100) (startRecording 0 initState)).stats.elevationGain =
        0 := rfl
    obtain ⟨h2g, h2lp, h2w⟩ := onPosition_flat_step 100 95 _ h1w h1lp
    rw [h1g] at h2g
    norm_num at h2g
    obtain ⟨h3g, h3lp, h3w⟩ := onPosition_flat_step 95 110 _ h2w h2lp
    rw [h2g] at h3g
    norm_num at h3g
    obtain ⟨h4g, h4lp, h4w⟩ := onPosition_flat_step 110 108 _ h3w h3lp
    rw [h3g] at h4g
    norm_num at h4g
    obtain ⟨h5g, h5lp, h5w⟩ := onPosition_flat_step 108 130 _ h4w h4lp
    rw [h4g] at h5g
    norm_num at h5g
    have hrun : runElev =
        onPosition (flatPoint 130) (onPosition (flatPoint 108) (onPosition (flatPoint 110)
          (onPosition (flatPoint 95) (onPosition (flatPoint 100)
            (startRecording 0 initState))))) := rfl
    rw [hrun]
    exact h5g

/-- Witness for C6: the second fix of the fresh [100, 95, …] ride
(previous point at altitude 100, new sample at altitude 95). -/
theorem elevationGain_positive_deltas_witness :
    (onPosition (flatPoint 100) (startRecording 0 initState)).watchLive = true ∧
    (onPosition (flatPoint 100) (startRecording 0 initState)).lastPoint =
      some (flatPoint 100) ∧
    (((onPosition (flatPoint 95) (onPosition (flatPoint 100)
        (startRecording 0 initState))).stats.elevationGain =
      if 0 < (flatPoint 95).altitude.getD 0 - (flatPoint 100).altitude.getD 0
      then (onPosition (flatPoint 100) (startRecording 0 initState)).stats.elevationGain +
        ((flatPoint 95).altitude.getD 0 - (flatPoint 100).altitude.getD 0)
      else (onPosition (flatPoint 100) (startRecording 0 initState)).stats.elevationGain) ∧
     runElev.stats.elevationGain = 37) :=
  ⟨rfl, rfl, elevationGain_positive_deltas _ (flatPoint 95) (flatPoint 100) rfl rfl⟩

/-- C5 counterexample: the original claim fails for a recording
session begun by a start issued while already recording.  In the
reachable run start–ingest(origin)–start, the second session retains
the first ride's last fix (`startRecording` never clears
`lastPointRef`), so ingesting the single sample `farPoint` yields
`totalDistance = 6371000·π` — the distance from the PREVIOUS ride's
fix — while the sum of consecutive distances of the session's
one-sample sequence is 0. -/
theorem totalDistance_claim_counterexample :
    Reachable (startRecording 1 (onPosition originPoint (startRecording 0 initState))) ∧
      (ingestList [farPoint]
          (startRecording 1 (onPosition originPoint (startRecording 0 initState)))).stats.totalDistance ≠
        consecutiveDistanceSum [farPoint] := by
  have hreach : Reachable (startRecording 1 (onPosition originPoint (startRecording 0 initState))) :=
    Reachable.start _ 1 (Reachable.pos _ originPoint (Reachable.start _ 0 Reachable.init))
  have e1 : startRecording 1 (onPosition originPoint (startRecording 0 initState)) =
      { isRecording := true, route := [],
        stats := { totalDistance := 0, avgSpeed := 0, maxSpeed := 0,
                   duration := 0, startTime := some 1, elevationGain := 0 },
        lastPoint := some originPoint, watchLive := true, leakedWatches := true,
        timerLive := true, leakedTimers := true } := rfl
  have e2 : (ingestList [farPoint]
      (startRecording 1 (onPosition originPoint (startRecording 0 initState)))).stats.totalDistance =
      6371000 * Real.pi := by
    have hstep : ingestList [farPoint]
        (startRecording 1 (onPosition originPoint (startRecording 0 initState))) =
        onPosition farPoint (startRecording 1 (onPosition originPoint (startRecording 0 initState))) := rfl
    rw [hstep, e1]
    unfold onPosition
    simp [originPoint, farPoint, calculateDistance_origin_far]
    exact calculateDistance_origin_far
  have e3 : consecutiveDistanceSum [farPoint] = 0 := by
    simp [consecutiveDistanceSum, sumDistFrom]
  refine ⟨hreach, ?_⟩
  rw [e2, e3]
  have hpi := Real.pi_pos
  positivity
